import Mathlib

/-!
# Shallow embedding of `gtasks` (task.go)

`gtasks` is a small Go library: a `Task` is a unit of deferred work holding a
callback `f : func(chan bool)`, a cancellation channel `cancelchan : chan bool`
(never sent on, only ever `close`d), an optional trigger channel
`after : chan interface{}`, a `once` flag, an append-only list of subscriber
channels (`listeners`, each `make(chan interface{}, 1)`), and observability
fields `running` / `runStart`.  A `Runner` is a mutex-guarded
`map[string]*Task`.

The embedding below models:

* `cancelchan` as a single `Bool` (`cancelClosed`): the channel is unbuffered
  and nothing in the library ever sends on it, so its only observable state is
  whether it has been closed.  Go's `close` on an already-closed channel
  panics; `Task.Cancel` is therefore `Except`-valued.
* the callback as a pure state transformer `f : Bool → σ → σ` over an
  abstract caller state `σ`; its first argument is the observable state of
  the cancellation channel handed to it (`t.f(t.cancelchan)`).
* subscriber channels as bounded FIFO buffers (`BufChan`): a non-blocking
  send (`select { case l <- true: default: }`) enqueues when the buffer has
  room and silently drops otherwise.
* `Task.Run`'s `select` loop over `cancelchan` / `after` as a recursion on a
  list of `Choice`s: the sequence of branches the `select` statement takes.
  A choice list is *admissible* (`choicesOk`) for a scenario given by the
  cancellation state and the number of trigger signals that arrive: the
  `cancelchan` branch can only fire once the channel is closed (nothing ever
  sends on it), and the `after` branch consumes one pending signal.
  An empty suffix of choices means the `select` is still blocked: `Run` has
  not returned.
* every externally visible step of `exec` as an `Effect`, so that order,
  multiplicity and delivery of side effects can be stated.
-/

namespace Gtasks

/-- A buffered Go channel holding the completion signals (`l <- true`), as
created by `Task.Subscribe` via `make(chan interface{}, 1)`.  `buf` is the
FIFO content, `cap` the capacity given to `make`. -/
structure BufChan where
  cap : Nat
  buf : List Bool
  deriving Repr, DecidableEq

/-- Non-blocking send of `true` (`select { case l <- true: default: }`):
enqueue when there is room, otherwise drop.  Returns the channel afterwards
and whether the value was delivered. -/
def BufChan.trySendTrue (c : BufChan) : BufChan × Bool :=
  if c.buf.length < c.cap then ({ c with buf := c.buf ++ [true] }, true)
  else (c, false)

/-- The `Task` struct of task.go, with the callback specialised to a pure
transformer of an abstract caller state `σ`.  `after` only records whether a
trigger source is installed (`t.after == nil` or not): the signals it yields
are part of the run scenario, not of the struct. -/
structure Task (σ : Type) where
  f : Bool → σ → σ
  cancelClosed : Bool
  after : Option Unit
  listeners : List BufChan
  once : Bool
  runStart : Option Nat
  running : Bool

/-- Constructor `NewTask`: fresh cancel channel (open), no trigger source, no listeners,
`once`/`running` false, zero start time. -/
def NewTask {σ : Type} (f : Bool → σ → σ) : Task σ :=
  { f := f
    cancelClosed := false
    after := none
    listeners := []
    once := false
    runStart := none
    running := false }

/-- Method `Task.Cancel`: `close(t.cancelchan)`.  Go's `close` panics on an already
closed channel, so the result is `Except`: `.error` is the runtime panic
message. -/
def Task.Cancel {σ : Type} (t : Task σ) : Except String (Task σ) :=
  if t.cancelClosed then .error "close of closed channel"
  else .ok { t with cancelClosed := true }

/-- Method `Task.Once`: set the `once` flag. -/
def Task.Once {σ : Type} (t : Task σ) : Task σ :=
  { t with once := true }

/-- Method `Task.Subscribe`: create a channel with capacity 1
(`make(chan interface{}, 1)`), append it to `listeners`, return it. -/
def Task.Subscribe {σ : Type} (t : Task σ) : Task σ × BufChan :=
  let c : BufChan := { cap := 1, buf := [] }
  ({ t with listeners := t.listeners ++ [c] }, c)

/-- The externally visible steps of `Task.exec`, in order:
`running = true`; `runStart = time.Now()`; the callback call
`t.f(t.cancelchan)`; `running = false`; then one non-blocking publish per
listener (`publish i delivered`). -/
inductive Effect where
  | setRunning (b : Bool)
  | recordStart (now : Nat)
  | invokeCallback
  | publish (i : Nat) (delivered : Bool)
  deriving Repr, DecidableEq

/-- The fan-out loop of `exec` (`for _, l := range t.listeners { select ... }`):
non-blocking send of `true` to every listener in order, starting at index
`i`.  Returns the updated listeners and the publish trace. -/
def publishAll : List BufChan → Nat → List BufChan × List Effect
  | [], _ => ([], [])
  | c :: rest, i =>
    let p := c.trySendTrue
    let pr := publishAll rest (i + 1)
    (p.1 :: pr.1, .publish i p.2 :: pr.2)

/-- Method `Task.exec`: `running := true`; `runStart := time.Now()` (the clock value
is the parameter `now`); invoke the callback with the cancellation channel;
`running := false`; then fan out to the listeners.  Returns the task, the
caller state after the callback and the effect trace. -/
def Task.exec {σ : Type} (t : Task σ) (s : σ) (now : Nat) :
    Task σ × σ × List Effect :=
  let t1 := { t with running := true, runStart := some now }
  let s' := t1.f t1.cancelClosed s
  let t2 := { t1 with running := false }
  let pr := publishAll t2.listeners 0
  ({ t2 with listeners := pr.1 }, s',
    [.setRunning true, .recordStart now, .invokeCallback, .setRunning false]
      ++ pr.2)

/-- A branch taken by the `select` in `Task.Run`'s loop:
`cancel` is `case _, opened := <-t.cancelchan` observing the closed channel
(`opened == false`), `trigger` is `case <-t.after`. -/
inductive Choice where
  | cancel
  | trigger
  deriving Repr, DecidableEq

/-- Admissibility of a choice list for a run scenario: `cancelClosed` is the
state of the cancellation channel, `pending` the number of trigger signals
that arrive.  The `cancel` branch can only fire once the channel is closed
(nothing ever sends on `cancelchan`), and each `trigger` branch consumes one
pending signal. -/
def choicesOk (cancelClosed : Bool) : Nat → List Choice → Bool
  | _, [] => true
  | _, .cancel :: _ => cancelClosed
  | pending, .trigger :: rest =>
    decide (0 < pending) && choicesOk cancelClosed (pending - 1) rest

/-- The `for { select { ... } }` loop of `Task.Run`, driven by the list of
branches the `select` takes.  The `Bool` in the result is `true` when `Run`
returned, `false` when the loop is still blocked in the `select`.
The `cancel` branch observes `opened == false` and returns; the `trigger`
branch runs `exec` and returns when `once` is set. -/
def Task.runLoop {σ : Type} (t : Task σ) (s : σ) (now : Nat) :
    List Choice → Task σ × σ × List Effect × Bool
  | [] => (t, s, [], false)
  | .cancel :: _ => (t, s, [], true)
  | .trigger :: rest =>
    let e := t.exec s now
    if e.1.once then (e.1, e.2.1, e.2.2, true)
    else
      let r := e.1.runLoop e.2.1 now rest
      (r.1, r.2.1, e.2.2 ++ r.2.2.1, r.2.2.2)

/-- Method `Task.Run`: if no trigger source is installed (`t.after == nil`), call
`exec` once and return; otherwise enter the wait loop. -/
def Task.Run {σ : Type} (t : Task σ) (s : σ) (now : Nat)
    (choices : List Choice) : Task σ × σ × List Effect × Bool :=
  match t.after with
  | none =>
    let e := t.exec s now
    (e.1, e.2.1, e.2.2, true)
  | some _ => t.runLoop s now choices

/-- Number of callback invocations recorded in an effect trace. -/
def countInvoke : List Effect → Nat
  | [] => 0
  | .invokeCallback :: es => countInvoke es + 1
  | _ :: es => countInvoke es

/-!
## The signal adapter `Wrap`

`Wrap(ch interface{}) chan interface{}` inspects `ch` with `reflect`:

* not a channel, or a send-only channel (`t.ChanDir()&reflect.RecvDir == 0`):
  `panic("channels: input to Wrap must be readable channel")`;
* element kind `reflect.Interface`: `return ch.(chan interface{})` — a Go
  type assertion to the concrete type `chan interface{}`, which succeeds
  exactly when the dynamic type of `ch` is the bidirectional
  `chan interface{}` and otherwise panics with an interface-conversion error;
* otherwise: spawn a goroutine that repeatedly `Recv`s from the source and
  does a non-blocking send of the received value into a fresh *unbuffered*
  channel `realChan`, dropping the value when no receiver is ready, and
  closes `realChan` once the source is exhausted; return `realChan`.

The reflection data of the argument is modelled by `ChanType` (direction and
element-kind classification); the goroutine's delivery behaviour by
`forwardLoop`, driven by a receiver-readiness schedule `ready` (attempt `i`
of the non-blocking send succeeds iff `ready i`).
-/

/-- Direction of a Go channel type (`reflect.ChanDir`). -/
inductive Dir where
  | both
  | recvOnly
  | sendOnly
  deriving Repr, DecidableEq

/-- Classification of a channel's element type: the empty interface
`interface .. ` (the uniform signal type), some other interface type
(kind `reflect.Interface` but not `interface..`, e.g. `error`), or a
non-interface type. -/
inductive ElemKind where
  | emptyInterface
  | namedInterface
  | concrete
  deriving Repr, DecidableEq

/-- The reflection data of a channel argument to `Wrap`. -/
structure ChanType where
  dir : Dir
  elem : ElemKind
  deriving Repr, DecidableEq

/-- An argument to `Wrap`: a channel of some type, or a non-channel value. -/
inductive WrapInput where
  | chanOf (t : ChanType)
  | nonChan
  deriving Repr, DecidableEq

/-- A Go runtime panic raised inside `Wrap`. -/
inductive PanicMsg where
  /-- Go panic `"channels: input to Wrap must be readable channel"`. -/
  | notReadableChan
  /-- The type assertion `ch.(chan interface..)` failed. -/
  | failedTypeAssertion
  deriving Repr, DecidableEq

/-- What `Wrap` returns: a panic, the argument channel itself (`return
ch.(chan interface{})`), or the fresh `realChan` fed by the forwarding
goroutine. -/
inductive WrapOutcome where
  | panicked (msg : PanicMsg)
  | sameChan
  | forwarder
  deriving Repr, DecidableEq

/-- The dispatch of `Wrap` on the reflection data of its argument, line by
line from task.go. -/
def Wrap : WrapInput → WrapOutcome
  | .nonChan => .panicked .notReadableChan
  | .chanOf t =>
    if t.dir = .sendOnly then .panicked .notReadableChan
    else if t.elem = .emptyInterface ∨ t.elem = .namedInterface then
      if t.dir = .both ∧ t.elem = .emptyInterface then .sameChan
      else .panicked .failedTypeAssertion
    else .forwarder

/-- The forwarding goroutine of `Wrap`, applied to a source that yields the
values `src` and is then closed.  Attempt `i` of the non-blocking send into
`realChan` succeeds iff `ready i` (a receiver is blocked on `realChan` at
that moment); otherwise the value is dropped.  When the source is exhausted
the goroutine closes `realChan`.  The result is the list of values actually
delivered to receivers, in order, before `realChan` is closed. -/
def forwardLoop {α : Type} (ready : Nat → Bool) : List α → Nat → List α
  | [], _ => []
  | x :: rest, i =>
    if ready i then x :: forwardLoop ready rest (i + 1)
    else forwardLoop ready rest (i + 1)

/-- Observable result of the `i`-th receive from the wrapped channel. -/
inductive ReadResult (α : Type) where
  | value (a : α)
  | closed
  deriving Repr, DecidableEq

/-- The `i`-th receive from a channel that delivers the values `delivered`
and is then closed: a value while they last, then the zero value with
`ok == false`. -/
def readAt {α : Type} (delivered : List α) (i : Nat) : ReadResult α :=
  match delivered[i]? with
  | some a => .value a
  | none => .closed

/-- The values delivered by the channel `Wrap` returns, for a source channel
with reflection data `ct` whose buffered content is `src` and which is then
closed; `none` when `Wrap` panics.  In the `sameChan` case the returned
channel *is* the source, so its receives are exactly the buffered values
followed by closed; in the `forwarder` case they are governed by
`forwardLoop`. -/
def wrapDelivered {α : Type} (ct : ChanType) (src : List α)
    (ready : Nat → Bool) : Option (List α) :=
  match Wrap (.chanOf ct) with
  | .panicked _ => none
  | .sameChan => some src
  | .forwarder => some (forwardLoop ready src 0)

/-!
## The `Runner` registry

Go maps are reference types: `Runner.All` (`return r.tasks`) hands the caller
the very map header stored in the `Runner`, so writes through the returned
map are writes to the registry.  `MapHeap` models the Go heap of map payloads
(`Nat` references to `Registry` contents) to make that aliasing expressible;
`RunnerRef` is a `Runner` whose `tasks` field holds such a reference. -/

/-- The payload of a `map[string]*Task` cell: tasks identified by an
abstract id (the `*Task` pointer). -/
def Registry : Type := String → Option Nat

/-- The heap of map payloads: Go map values are references into it. -/
structure MapHeap where
  cells : Nat → Registry

/-- A `Runner` as a holder of a map reference (`tasks map[string]*Task`). -/
structure RunnerRef where
  tasksRef : Nat

/-- Method `Runner.All`: `return r.tasks` — the map reference itself, not a copy. -/
def RunnerRef.All (r : RunnerRef) : Nat :=
  r.tasksRef

/-- Method `Runner.Get`: read the cell `r.tasks` refers to at `name`. -/
def RunnerRef.Get (r : RunnerRef) (h : MapHeap) (name : String) : Option Nat :=
  h.cells r.tasksRef name

/-- The registry contents a runner currently sees. -/
def RunnerRef.registry (r : RunnerRef) (h : MapHeap) : Registry :=
  h.cells r.tasksRef

/-- A map write `m[k] = v` (or `delete(m, k)` for `v = none`) through a map
reference: updates the referred-to heap cell in place. -/
def MapHeap.write (h : MapHeap) (ref : Nat) (k : String) (v : Option Nat) :
    MapHeap :=
  ⟨fun j => if j = ref then
      (fun k' => if k' = k then v else h.cells j k')
    else h.cells j⟩

/-- A registry for `Runner.Cancel`, holding the tasks themselves (each map
entry owns its `*Task`; `Runner.Add` always stores a fresh `NewTask`, so
distinct names never alias one task). -/
def TaskMap (σ : Type) : Type := String → Option (Task σ)

/-- Result of `Runner.Cancel`: the registry afterwards together with the
post-`Cancel` state of the removed task (whose pointer the caller may still
hold), or the propagated panic from `close` of a closed channel. -/
inductive CancelOutcome (σ : Type) where
  | ok (reg : TaskMap σ) (cancelled : Option (Task σ))
  | panicked (msg : String)

/-- Returns `true` iff `Runner.Cancel` returned normally. -/
def CancelOutcome.isOk {σ : Type} : CancelOutcome σ → Bool
  | .ok _ _ => true
  | .panicked _ => false

/-- Method `Runner.Cancel(name)`: `if t, ok := r.tasks[name]; ok { t.Cancel();
delete(r.tasks, name) }`.  A panic in `t.Cancel()` propagates before the
`delete` runs. -/
def RunnerCancel {σ : Type} (reg : TaskMap σ) (name : String) :
    CancelOutcome σ :=
  match reg name with
  | none => .ok reg none
  | some t =>
    match t.Cancel with
    | .error m => .panicked m
    | .ok t' => .ok (fun k => if k = name then none else reg k) (some t')

/-!
## Concrete instances

Closed instances of the model, used to evaluate the definitions on the
concrete scenarios of the test suite (task_test.go) and of the properties
below. -/

/-- A task built as by `NewTask` with `Once()` set and no trigger source;
the caller state counts the callback's invocations (`i++`). -/
def exNoTrig : Task Nat :=
  { f := fun _ n => n + 1
    cancelClosed := false
    after := none
    listeners := []
    once := true
    runStart := none
    running := false }

/-- Task `exNoTrig` after `Cancel()`: no trigger source, cancellation channel
already closed. -/
def exNoTrigCancelled : Task Nat :=
  { exNoTrig with cancelClosed := true }

/-- A task with `Once()` set and a trigger source installed via `After`. -/
def exOnceTrig : Task Nat :=
  { f := fun _ n => n + 1
    cancelClosed := false
    after := some ()
    listeners := []
    once := true
    runStart := none
    running := false }

/-- A task with a trigger source installed and `Cancel()` already called,
`once` not set (the `TestCancelTask` scenario). -/
def exTrigCancelled : Task Nat :=
  { f := fun _ n => n + 1
    cancelClosed := true
    after := some ()
    listeners := []
    once := false
    runStart := none
    running := false }

/-- A task with two subscriber channels: one empty, one whose single slot is
already full. -/
def exTwoListeners : Task Nat :=
  { f := fun _ n => n + 1
    cancelClosed := false
    after := none
    listeners := [{ cap := 1, buf := [] }, { cap := 1, buf := [true] }]
    once := false
    runStart := none
    running := false }

/-- A fresh task over a trivial caller state. -/
def exFresh : Task Unit :=
  NewTask (fun _ s => s)

/-- Task `exFresh` with its cancellation channel already closed. -/
def exCancelled : Task Unit :=
  { exFresh with cancelClosed := true }

/-- A registry holding the not-yet-cancelled task under name `a`. -/
def exRegOpen : TaskMap Unit :=
  fun k => if k = "a" then some exFresh else none

/-- A registry holding an already-cancelled task under name `a`. -/
def exRegClosed : TaskMap Unit :=
  fun k => if k = "a" then some exCancelled else none

/-- A heap whose cell 0 is the registry mapping `a` to task id 1. -/
def exHeap : MapHeap :=
  ⟨fun r => if r = 0 then (fun k => if k = "a" then some 1 else none)
    else fun _ => none⟩

/-- A runner whose `tasks` field refers to cell 0 of `exHeap`. -/
def exRunner : RunnerRef :=
  ⟨0⟩

/-!
## Helper lemmas
-/

theorem countInvoke_append (es es' : List Effect) :
    countInvoke (es ++ es') = countInvoke es + countInvoke es' := by
  induction es with
  | nil => simp [countInvoke]
  | cons e es ih =>
    cases e <;> simp [countInvoke, ih]
    omega

theorem countInvoke_publishAll (ls : List BufChan) (i : Nat) :
    countInvoke (publishAll ls i).2 = 0 := by
  induction ls generalizing i with
  | nil => rfl
  | cons c rest ih => simp [publishAll, countInvoke, ih]

theorem publishAll_length (ls : List BufChan) (i : Nat) :
    (publishAll ls i).1.length = ls.length := by
  induction ls generalizing i with
  | nil => rfl
  | cons c rest ih => simp [publishAll, ih]

/-- The branch structure of the non-blocking send, written out. -/
theorem trySendTrue_eq (c : BufChan) :
    c.trySendTrue =
      (if c.buf.length < c.cap then { c with buf := c.buf ++ [true] } else c,
       decide (c.buf.length < c.cap)) := by
  unfold BufChan.trySendTrue
  split <;> simp [*]

/-- Element `k` of the fan-out: the `k`-th listener receives the `k`-th
publish attempt, numbered `i0 + k`. -/
theorem publishAll_getElem (ls : List BufChan) (i0 k : Nat) (c : BufChan)
    (h : ls[k]? = some c) :
    (publishAll ls i0).2[k]? = some (.publish (i0 + k) c.trySendTrue.2) ∧
    (publishAll ls i0).1[k]? = some c.trySendTrue.1 := by
  induction ls generalizing i0 k with
  | nil => simp at h
  | cons hd tl ih =>
    cases k with
    | zero =>
      simp at h
      subst h
      simp [publishAll]
    | succ k =>
      simp at h
      have hik : i0 + (k + 1) = (i0 + 1) + k := by omega
      have := ih (i0 + 1) k h
      simpa [publishAll, hik] using this

theorem exec_trace {σ : Type} (t : Task σ) (s : σ) (now : Nat) :
    (t.exec s now).2.2 =
      [.setRunning true, .recordStart now, .invokeCallback, .setRunning false]
        ++ (publishAll t.listeners 0).2 := by
  simp [Task.exec]

theorem countInvoke_exec {σ : Type} (t : Task σ) (s : σ) (now : Nat) :
    countInvoke (t.exec s now).2.2 = 1 := by
  rw [exec_trace, countInvoke_append]
  simp [countInvoke, countInvoke_publishAll]

theorem exec_preserves_once {σ : Type} (t : Task σ) (s : σ) (now : Nat) :
    (t.exec s now).1.once = t.once := by
  simp [Task.exec]

/-- Unfolding lemma: `Run` with no trigger source is a single synchronous `exec` followed by
the return. -/
theorem run_noTrigger_eq {σ : Type} (t : Task σ) (s : σ) (now : Nat)
    (choices : List Choice) (h : t.after = none) :
    t.Run s now choices =
      ((t.exec s now).1, (t.exec s now).2.1, (t.exec s now).2.2, true) := by
  simp [Task.Run, h]

/-!
## Claims
-/

/-- Claim C1: a `Task` with no trigger source installed (`t.after == nil`)
executes its callback exactly once per `Run()` call, synchronously on the
caller's execution context before `Run()` returns (the whole of `Run` is the
single `exec` call), and `Run` returns — regardless of the `once` flag and
of everything else in the task (both arbitrary in `t`). -/
theorem Run_noTrigger_executes_exactly_once {σ : Type} (t : Task σ) (s : σ)
    (now : Nat) (choices : List Choice) (h : t.after = none) :
    t.Run s now choices =
      ((t.exec s now).1, (t.exec s now).2.1, (t.exec s now).2.2, true) ∧
    countInvoke (t.Run s now choices).2.2.1 = 1 ∧
    (t.Run s now choices).2.2.2 = true := by
  have he := run_noTrigger_eq t s now choices h
  refine ⟨he, ?_, ?_⟩ <;> rw [he]
  simpa using countInvoke_exec t s now

/-- Witness for C1: the `TestTask` scenario (`Once` even set), on the
counting state `0`. -/
theorem Run_noTrigger_executes_exactly_once_witness :
    countInvoke (exNoTrig.Run 0 0 []).2.2.1 = 1 ∧
    (exNoTrig.Run 0 0 []).2.2.2 = true ∧ exNoTrig.once = true :=
  ⟨(Run_noTrigger_executes_exactly_once exNoTrig 0 0 [] rfl).2.1,
   (Run_noTrigger_executes_exactly_once exNoTrig 0 0 [] rfl).2.2, rfl⟩

/-- Claim C10: the no-trigger path of `Run` never consults the cancellation
channel: even with `cancelClosed = true` (a `Cancel()` that happened before
`Run`), the callback still executes exactly once and `Run` returns. -/
theorem Run_noTrigger_ignores_cancellation {σ : Type} (t : Task σ) (s : σ)
    (now : Nat) (choices : List Choice) (h : t.after = none)
    (_hc : t.cancelClosed = true) :
    countInvoke (t.Run s now choices).2.2.1 = 1 ∧
    (t.Run s now choices).2.2.2 = true := by
  have he := run_noTrigger_eq t s now choices h
  constructor <;> rw [he]
  simpa using countInvoke_exec t s now

/-- Witness for C10: a cancelled no-trigger task still runs its callback. -/
theorem Run_noTrigger_ignores_cancellation_witness :
    countInvoke (exNoTrigCancelled.Run 0 0 []).2.2.1 = 1 ∧
    (exNoTrigCancelled.Run 0 0 []).2.2.2 = true :=
  Run_noTrigger_ignores_cancellation exNoTrigCancelled 0 0 [] rfl rfl

/-- Claim C2: a task with `Once()` set, a trigger source installed, and an open
cancellation channel: for a scenario in which the trigger source yields
`N ≥ 1` signals (any admissible branch sequence of the `select` loop — with
the cancellation channel open only the trigger branch is admissible — that
fires at least once, which `N ≥ 1` enables), the callback executes exactly
once in total and `Run` returns. -/
theorem Run_once_with_signals_executes_once {σ : Type} (t : Task σ) (s : σ)
    (now : Nat) (N : Nat) (choices : List Choice)
    (hafter : t.after = some ()) (honce : t.once = true)
    (_hcancel : t.cancelClosed = false) (_hN : 1 ≤ N)
    (hok : choicesOk false N choices = true) (hne : choices ≠ []) :
    countInvoke (t.Run s now choices).2.2.1 = 1 ∧
    (t.Run s now choices).2.2.2 = true := by
  cases choices with
  | nil => exact absurd rfl hne
  | cons c rest =>
    cases c with
    | cancel => simp [choicesOk] at hok
    | trigger =>
      have hrun : t.Run s now (.trigger :: rest) =
          t.runLoop s now (.trigger :: rest) := by
        simp [Task.Run, hafter]
      have honce' : (t.exec s now).1.once = true := by
        rw [exec_preserves_once]; exact honce
      rw [hrun]
      constructor
      · simp [Task.runLoop, honce', countInvoke_exec]
      · simp [Task.runLoop, honce']

/-- Witness for C2: the `TestTriggerTask` scenario, one buffered signal. -/
theorem Run_once_with_signals_executes_once_witness :
    countInvoke (exOnceTrig.Run 0 0 [Choice.trigger]).2.2.1 = 1 ∧
    (exOnceTrig.Run 0 0 [Choice.trigger]).2.2.2 = true :=
  Run_once_with_signals_executes_once exOnceTrig 0 0 1 [Choice.trigger]
    rfl rfl rfl (Nat.le_refl 1) rfl (by simp)

/-- Counterexample to C3 as stated: C3 quantifies over *every* `Task`;
but for a task with no trigger source whose `Cancel()` already happened
(`exNoTrigCancelled` — no trigger signal ever arrives), `Run()` still
executes the callback (once), because the no-trigger path of `Run` calls
`exec` without consulting the cancellation channel.  The claim says the
callback never executes, i.e. the invocation count would have to be `0`;
it is `1`. -/
theorem cancelled_noTrigger_task_still_executes :
    exNoTrigCancelled.cancelClosed = true ∧
    exNoTrigCancelled.after = none ∧
    (exNoTrigCancelled.Run 0 0 []).2.2.2 = true ∧
    countInvoke (exNoTrigCancelled.Run 0 0 []).2.2.1 = 1 :=
  ⟨rfl, rfl, rfl, rfl⟩

/-- Claim C3, amended: restricted to tasks with an installed trigger source.
If `Cancel()` was invoked before any trigger signal arrives (cancellation
channel closed, zero pending signals — so the only admissible `select`
branch is the cancellation one), `Run()` returns without ever executing the
callback and leaves the task untouched. -/
theorem Run_withTrigger_cancelled_before_signal_never_executes {σ : Type}
    (t : Task σ) (s : σ) (now : Nat) (choices : List Choice)
    (hafter : t.after = some ()) (_hcancel : t.cancelClosed = true)
    (hok : choicesOk true 0 choices = true) (hne : choices ≠ []) :
    (t.Run s now choices).2.2.2 = true ∧
    countInvoke (t.Run s now choices).2.2.1 = 0 ∧
    (t.Run s now choices).1 = t ∧ (t.Run s now choices).2.1 = s := by
  cases choices with
  | nil => exact absurd rfl hne
  | cons c rest =>
    cases c with
    | trigger => simp [choicesOk] at hok
    | cancel =>
      have : t.Run s now (.cancel :: rest) = (t, s, [], true) := by
        simp [Task.Run, hafter, Task.runLoop]
      rw [this]
      exact ⟨rfl, rfl, rfl, rfl⟩

/-- Witness for the amended C3: the `TestCancelTask` scenario. -/
theorem Run_withTrigger_cancelled_before_signal_never_executes_witness :
    (exTrigCancelled.Run 0 0 [Choice.cancel]).2.2.2 = true ∧
    countInvoke (exTrigCancelled.Run 0 0 [Choice.cancel]).2.2.1 = 0 :=
  ⟨(Run_withTrigger_cancelled_before_signal_never_executes exTrigCancelled
      0 0 [Choice.cancel] rfl rfl rfl (by simp)).1,
   (Run_withTrigger_cancelled_before_signal_never_executes exTrigCancelled
      0 0 [Choice.cancel] rfl rfl rfl (by simp)).2.1⟩

/-- Claim C4, the code evaluated at the claim's failing input: `Task.Cancel` is
`close(t.cancelchan)` with no guard: the first call closes the channel, and
a second call is Go's `close` of a closed channel — a runtime panic that
aborts the process, not a no-op.  The claim (spec §8.6, a reimplementation
requirement) demands the second call leave the task cancelled without
aborting; the code panics instead. -/
theorem Cancel_twice_panics :
    (exFresh.Cancel).map (fun t => t.cancelClosed) = .ok true ∧
    (exFresh.Cancel).bind Task.Cancel = .error "close of closed channel" :=
  ⟨rfl, rfl⟩

/-- Claim C5: for a source channel of any element type (any reflection data
`ct` on which `Wrap` returns a channel rather than panicking) holding
exactly one buffered element `x` and then closed, reading from the channel
`Wrap` returns — with the receiver ready at every forwarding step, which is
what continuously reading means — yields exactly one signal, after which
every further read observes a closed channel and no value. -/
theorem Wrap_single_element_one_signal_then_closed {α : Type} (x : α)
    (ct : ChanType) (ready : Nat → Bool) (out : List α)
    (hready : ∀ i, ready i = true)
    (hout : wrapDelivered ct [x] ready = some out) :
    out = [x] ∧ readAt out 0 = .value x ∧
    ∀ i, 1 ≤ i → readAt out i = (.closed : ReadResult α) := by
  have hx : out = [x] := by
    unfold wrapDelivered at hout
    cases hW : Wrap (.chanOf ct) <;> rw [hW] at hout
    · simp at hout
    · simpa using hout.symm
    · simp [forwardLoop, hready 0] at hout
      exact hout.symm
  subst hx
  refine ⟨rfl, rfl, ?_⟩
  intro i hi
  match i, hi with
  | i + 1, _ => rfl

/-- Witness for C5: a `chan int` (concrete element type, forwarding branch)
holding `7`, with an always-ready receiver. -/
theorem Wrap_single_element_one_signal_then_closed_witness :
    wrapDelivered ⟨.both, .concrete⟩ [7] (fun _ => true) = some [7] ∧
    readAt [7] 0 = ReadResult.value 7 ∧
    readAt ([7] : List Nat) 5 = ReadResult.closed :=
  ⟨rfl,
   (Wrap_single_element_one_signal_then_closed (7 : Nat) ⟨.both, .concrete⟩
      (fun _ => true) [7] (fun _ => rfl) rfl).2.1,
   (Wrap_single_element_one_signal_then_closed (7 : Nat) ⟨.both, .concrete⟩
      (fun _ => true) [7] (fun _ => rfl) rfl).2.2 5 (by omega)⟩

/-- Counterexample to C6 as stated: a receive-only channel of element
type `interface{}` (`<-chan interface{}`) is a readable source channel of
the uniform signal type, but `Wrap` does not return it unchanged: the
shortcut executes the type assertion `ch.(chan interface{})`, whose target
is the *bidirectional* `chan interface{}`; on a `<-chan interface{}` the
assertion fails and `Wrap` panics. -/
theorem Wrap_recvOnly_uniform_chan_panics :
    Wrap (.chanOf ⟨.recvOnly, .emptyInterface⟩) =
      .panicked .failedTypeAssertion ∧
    Wrap (.chanOf ⟨.recvOnly, .emptyInterface⟩) ≠ .sameChan :=
  ⟨rfl, by decide⟩

/-- Claim C6, amended: restricted to bidirectional channels.  For every
bidirectional channel whose element type is `interface{}`, `Wrap` returns
that very channel unchanged — no forwarding goroutine, no panic. -/
theorem Wrap_bidirectional_uniform_chan_returned_unchanged (ct : ChanType)
    (hdir : ct.dir = .both) (helem : ct.elem = .emptyInterface) :
    Wrap (.chanOf ct) = .sameChan := by
  obtain ⟨d, e⟩ := ct
  simp only at hdir helem
  subst hdir
  subst helem
  rfl

/-- Witness for the amended C6. -/
theorem Wrap_bidirectional_uniform_chan_returned_unchanged_witness :
    Wrap (.chanOf ⟨.both, .emptyInterface⟩) = .sameChan :=
  Wrap_bidirectional_uniform_chan_returned_unchanged
    ⟨.both, .emptyInterface⟩ rfl rfl

/-- Claim C7: `exec` performs, in order: `running := true`, record the start
time, invoke the callback with the cancellation handle, `running := false`,
then one non-blocking publish per subscriber channel in list order — the
`k`-th subscriber receives the signal iff its single-slot buffer is not
full, and is left untouched otherwise (never blocking); the subscriber
list's length never changes under `exec`, and `Subscribe` returns a channel
of capacity exactly one, appended to the list (the list only grows). -/
theorem exec_effect_order_and_Subscribe_capacity {σ : Type} (t : Task σ)
    (s : σ) (now : Nat) :
    (t.exec s now).2.2 =
      [.setRunning true, .recordStart now, .invokeCallback, .setRunning false]
        ++ (publishAll t.listeners 0).2 ∧
    (t.exec s now).2.1 = t.f t.cancelClosed s ∧
    (t.exec s now).1.running = false ∧
    (t.exec s now).1.runStart = some now ∧
    (t.exec s now).1.listeners.length = t.listeners.length ∧
    (∀ (k : Nat) (c : BufChan), t.listeners[k]? = some c →
      (publishAll t.listeners 0).2[k]? =
        some (.publish k (decide (c.buf.length < c.cap))) ∧
      (t.exec s now).1.listeners[k]? =
        some (if c.buf.length < c.cap then { c with buf := c.buf ++ [true] }
          else c)) ∧
    t.Subscribe.1.listeners = t.listeners ++ [t.Subscribe.2] ∧
    t.Subscribe.2.cap = 1 ∧ t.Subscribe.2.buf = [] := by
  refine ⟨exec_trace t s now, ?_, ?_, ?_, ?_, ?_, ?_, rfl, rfl⟩
  · simp [Task.exec]
  · simp [Task.exec]
  · simp [Task.exec]
  · simp [Task.exec, publishAll_length]
  · intro k c hk
    have h := publishAll_getElem t.listeners 0 k c hk
    rw [trySendTrue_eq] at h
    have hl : (t.exec s now).1.listeners = (publishAll t.listeners 0).1 := by
      simp [Task.exec]
    constructor
    · simpa using h.1
    · rw [hl]
      simpa using h.2
  · simp [Task.Subscribe]

/-- Witness for C7: a task with one empty and one full subscriber channel;
the empty one receives the signal, the full one is skipped. -/
theorem exec_effect_order_and_Subscribe_capacity_witness :
    (publishAll exTwoListeners.listeners 0).2[1]? =
      some (Effect.publish 1 false) ∧
    (exTwoListeners.exec 0 5).1.listeners[0]? =
      some { cap := 1, buf := [true] } ∧
    exTwoListeners.Subscribe.2.cap = 1 := by
  have h := exec_effect_order_and_Subscribe_capacity exTwoListeners 0 5
  have h1 := h.2.2.2.2.2.1 1 { cap := 1, buf := [true] } rfl
  have h0 := h.2.2.2.2.2.1 0 { cap := 1, buf := [] } rfl
  exact ⟨by simpa using h1.1, by simpa using h0.2, h.2.2.2.2.2.2.2.1⟩

/-- Claim C8, the code evaluated at the claim's failing input: `Runner.All` returns
the runner's internal map itself (`return r.tasks`); Go maps are references,
so a write through the returned value is a write to the live registry:
deleting `"a"` from the map `All()` returned removes it from the runner.
The claim demands the registry be left unchanged by such a mutation. -/
theorem All_returns_live_registry_reference :
    exRunner.Get exHeap "a" = some 1 ∧
    exRunner.Get (exHeap.write exRunner.All "a" none) "a" = none :=
  ⟨rfl, rfl⟩

/-- Counterexample to C9 as stated: a task *is* registered under `"a"`,
but `Runner.Cancel "a"` neither cancels-and-removes nor no-ops: the
registered task's cancellation channel is already closed, so the inner
`t.Cancel()` is `close` of a closed channel and the call panics before the
`delete`. -/
theorem RunnerCancel_panics_on_cancelled_task :
    exRegClosed "a" = some exCancelled ∧
    (RunnerCancel exRegClosed "a").isOk = false :=
  ⟨rfl, rfl⟩

/-- Claim C9, amended: the registered task must not be already cancelled.
If a task with an open cancellation channel is registered under `name`,
`Runner.Cancel name` returns normally, the removed task comes back
cancelled, the entry is gone and every other entry is untouched; if no
task is registered under `name`, the call is a no-op that leaves the
registry unchanged.  (If the registered task is already cancelled the call
panics — see the counterexample.) -/
theorem RunnerCancel_present_removes_absent_noop {σ : Type}
    (reg : TaskMap σ) (name : String) :
    (∀ t, reg name = some t → t.cancelClosed = false →
      ∃ reg' t', RunnerCancel reg name = .ok reg' (some t') ∧
        t'.cancelClosed = true ∧ reg' name = none ∧
        ∀ k, k ≠ name → reg' k = reg k) ∧
    (reg name = none → RunnerCancel reg name = .ok reg none) := by
  constructor
  · intro t ht hopen
    refine ⟨fun k => if k = name then none else reg k,
      { t with cancelClosed := true }, ?_, rfl, by simp, ?_⟩
    · unfold RunnerCancel
      rw [ht]
      simp [Task.Cancel, hopen]
    · intro k hk
      simp [hk]
  · intro h
    unfold RunnerCancel
    rw [h]

/-- Witness for the amended C9: both branches on a concrete registry — the
present branch at `"a"` (open task, call returns normally), the absent
branch at `"b"` (registry returned as-is). -/
theorem RunnerCancel_present_removes_absent_noop_witness :
    (RunnerCancel exRegOpen "a").isOk = true ∧
    RunnerCancel exRegOpen "b" = .ok exRegOpen none := by
  constructor
  · obtain ⟨reg', t', heq, -, -, -⟩ :=
      (RunnerCancel_present_removes_absent_noop exRegOpen "a").1
        exFresh rfl rfl
    rw [heq]
    rfl
  · exact (RunnerCancel_present_removes_absent_noop exRegOpen "b").2 rfl

end Gtasks
